import Mathlib

/-!
Shallow embedding of the module-bound allocator
(src/modulebound_allocator.h, src/modulebound_allocator_fwddecl.h).

Modelling conventions:
- A raw allocation or deallocation function pointer (fp_raw_allocate_t,
  fp_raw_deallocate_t) is modelled by its pointer identity, a natural
  number `FnPtr`; pointer equality of two function pointers is equality
  of these numbers.
- The calling translation unit / module is modelled by a `Module` value
  holding the four global operators visible there (operator new,
  operator new[], operator delete, operator delete[]), each as a `FnPtr`.
- C++ element types are modelled by the inductive `CppType`, rich enough
  for the type traits the source uses: std.is_array, std.remove_reference,
  std.remove_all_extents, sizeof, and const qualification.
- Member functions are translated in state-passing style: each returns
  its C++ return value paired with the post-call object state.  A body
  that contains no store to m_raw_operators returns the receiver
  unchanged, mirroring the source line by line.
- Object identity (the `this != &rOther` self-assignment test) is
  modelled by an explicit boolean argument `same`, true exactly when the
  two C++ objects are one and the same; in that case the `other`
  argument and the receiver denote the same value.
- The compile-time static assertion on matching array/single allocation
  kinds (the static_assert, resp. the negative-size-array trick in the
  pre-C++0x branch) is modelled by returning `Option`: `none` means the
  instantiation is rejected at compile time and no runtime value exists.
- size_t arithmetic is modelled on Nat with an explicit reduction modulo
  2 ^ 64: the byte-count product sizeof(value_type) * nCount in allocate
  wraps exactly as the 64-bit size_t multiplication of the source does.
-/

set_option autoImplicit false

namespace kj

/-- Pointer identity of a raw allocation/deallocation function. -/
abbrev FnPtr := Nat

/-- std.pair of fp_raw_allocate_t and fp_raw_deallocate_t, the type of
modulebound_allocator_base.m_raw_operators (named raw_operators in the
source).  `first` is the allocate function, `second` the deallocate
function, following the std.pair member names used by the source. -/
structure RawOperators where
  first : FnPtr
  second : FnPtr
deriving DecidableEq, Repr

/-- std.pair operator== on the raw operator pair: componentwise pointer
equality of both functions. -/
def RawOperators.pair_eq (p q : RawOperators) : Bool :=
  p.first == q.first && p.second == q.second

/-- std.pair operator!= on the raw operator pair: the negation of
operator== (as specified for std.pair). -/
def RawOperators.pair_ne (p q : RawOperators) : Bool :=
  !(RawOperators.pair_eq p q)

/-- The global allocation operators visible to one translation
unit / module: operator new, operator new[], operator delete,
operator delete[]. -/
structure Module where
  opNew : FnPtr
  opNewArray : FnPtr
  opDelete : FnPtr
  opDeleteArray : FnPtr
deriving DecidableEq, Repr

/-- detail.fetch_raw_operators: given the array-allocation flag, capture
the pair (operator new[] or operator new, operator delete[] or
operator delete) from the calling module `m`. -/
def fetch_raw_operators (m : Module) (is_array : Bool) : RawOperators :=
  { first := if is_array then m.opNewArray else m.opNew
    second := if is_array then m.opDeleteArray else m.opDelete }

/-- C++ element types, as far as the type traits used by the source
distinguish them.  `scalar id size isConst` is any non-array
non-reference object type of the given size in bytes; `arr t n` is the
array type with element `t` and bound `n` (`none` for an array of
unknown bound); `lref` and `rref` are lvalue and rvalue references. -/
inductive CppType where
  | scalar (id : Nat) (size : Nat) (isConst : Bool)
  | arr (elem : CppType) (n : Option Nat)
  | lref (t : CppType)
  | rref (t : CppType)
deriving DecidableEq, Repr

/-- std.is_array: true exactly on array types (references to arrays are
not array types). -/
def CppType.is_array : CppType → Bool
  | .arr _ _ => true
  | _ => false

/-- std.remove_reference. -/
def CppType.remove_reference : CppType → CppType
  | .lref t => t
  | .rref t => t
  | t => t

/-- std.remove_all_extents. -/
def CppType.remove_all_extents : CppType → CppType
  | .arr t _ => CppType.remove_all_extents t
  | t => t

/-- detail.remove_reference_and_all_extents: remove_all_extents applied
to remove_reference of T. -/
def remove_reference_and_all_extents (t : CppType) : CppType :=
  CppType.remove_all_extents t.remove_reference

/-- Applying const to a C++ type: on an array it const-qualifies the
element type, on a reference it has no effect, otherwise it sets the
const qualifier. -/
def CppType.addConst : CppType → CppType
  | .scalar id size _ => .scalar id size true
  | .arr t n => .arr t.addConst n
  | .lref t => .lref t
  | .rref t => .rref t

/-- sizeof.  Only object types of known size occur where the source
applies sizeof (the value_type of the std.allocator base, a scalar). -/
def CppType.sizeofBytes : CppType → Nat
  | .scalar _ size _ => size
  | .arr t (some n) => n * t.sizeofBytes
  | .arr _ none => 0
  | .lref t => t.sizeofBytes
  | .rref t => t.sizeofBytes

/-- The enum raw_allocation_type from modulebound_allocator_fwddecl.h:
use the single-object operators, the array operators, or deduce from the
element type at every rebinding level.  The RawAllocation template
parameter std.integral_constant(raw_allocation_type, C) is modelled by
the enum value C itself. -/
inductive raw_allocation_type where
  | raw_allocation_single
  | raw_allocation_array
  | raw_allocation_deduce
deriving DecidableEq, Repr

/-- The default RawAllocation argument of modulebound_allocator from the
forward declaration: array if T is an array type, else single. -/
def default_raw_allocation (T : CppType) : raw_allocation_type :=
  if T.is_array then .raw_allocation_array else .raw_allocation_single

/-- modulebound_allocator_base.is_array_allocation: the resolved
allocation kind of the specialization over element type T with policy R.
The source computes
(RawAllocation::value == raw_allocation_deduce) ? std::is_array(T) : RawAllocation::value,
where in the non-deduce branch the enum value 0 (single) or 1 (array) is
converted to bool. -/
def is_array_allocation (T : CppType) (R : raw_allocation_type) : Bool :=
  match R with
  | .raw_allocation_deduce => T.is_array
  | .raw_allocation_single => false
  | .raw_allocation_array => true

/-- A specialization of the allocator template: the element type and the
RawAllocation policy parameter. -/
structure AllocSpec where
  T : CppType
  RawAllocation : raw_allocation_type
deriving DecidableEq, Repr

/-- modulebound_allocator_base.rebind: rebind(U).other is the allocator
specialized for element type U with the same RawAllocation policy. -/
def rebind (s : AllocSpec) (U : CppType) : AllocSpec :=
  { T := U, RawAllocation := s.RawAllocation }

/-- The resolved allocation kind of a specialization. -/
def resolved_kind (s : AllocSpec) : Bool :=
  is_array_allocation s.T s.RawAllocation

/-- modulebound_allocator_base(T, RawAllocation): stores one captured
raw operator pair per instance (the std.allocator base is stateless and
carries no modelled data). -/
structure modulebound_allocator_base (T : CppType) (R : raw_allocation_type) where
  m_raw_operators : RawOperators
deriving DecidableEq, Repr

namespace modulebound_allocator_base

/-- get_raw_operators: const member returning the stored pair by value;
the post-call state is the untouched receiver. -/
def get_raw_operators {T : CppType} {R : raw_allocation_type}
    (self : modulebound_allocator_base T R) :
    RawOperators × modulebound_allocator_base T R :=
  (self.m_raw_operators, self)

/-- Default constructor: captures the raw operator pair from the calling
module via detail.fetch_raw_operators with the resolved kind. -/
def default_construct (T : CppType) (R : raw_allocation_type) (ctx : Module) :
    modulebound_allocator_base T R :=
  { m_raw_operators := fetch_raw_operators ctx (is_array_allocation T R) }

/-- Same-type copy constructor (source lines 167-171): ignores the pair
stored in rOther and captures a fresh pair from the calling module. -/
def copy_construct {T : CppType} {R : raw_allocation_type} (ctx : Module)
    (rOther : modulebound_allocator_base T R) :
    modulebound_allocator_base T R × modulebound_allocator_base T R :=
  ({ m_raw_operators := fetch_raw_operators ctx (is_array_allocation T R) }, rOther)

/-- Same-type copy assignment (source lines 176-183): if this and rOther
are the same object, the stored pair is left unchanged; otherwise a
fresh pair is captured from the calling module.  Returns the post-call
states of the receiver and of rOther. -/
def copy_assign {T : CppType} {R : raw_allocation_type} (ctx : Module)
    (self rOther : modulebound_allocator_base T R) (same : Bool) :
    modulebound_allocator_base T R × modulebound_allocator_base T R :=
  if same then (self, rOther)
  else ({ m_raw_operators := fetch_raw_operators ctx (is_array_allocation T R) }, rOther)

/-- Cross-type copy constructor (source lines 188-203): statically
asserts that the resolved allocation kinds of the two specializations
match (none = rejected at compile time); when they match, captures a
fresh pair from the calling module, ignoring the pair of rOther. -/
def copy_construct_cross (T : CppType) (R : raw_allocation_type)
    {U : CppType} {RU : raw_allocation_type} (ctx : Module)
    (rOther : modulebound_allocator_base U RU) :
    Option (modulebound_allocator_base T R × modulebound_allocator_base U RU) :=
  if is_array_allocation T R = is_array_allocation U RU then
    some ({ m_raw_operators := fetch_raw_operators ctx (is_array_allocation T R) }, rOther)
  else none

/-- Cross-type copy assignment (source lines 208-226): statically
asserts matching resolved kinds; when they match, captures a fresh pair
unless this and rOther are the same object. -/
def copy_assign_cross {T : CppType} {R : raw_allocation_type}
    {U : CppType} {RU : raw_allocation_type} (ctx : Module)
    (self : modulebound_allocator_base T R)
    (rOther : modulebound_allocator_base U RU) (same : Bool) :
    Option (modulebound_allocator_base T R × modulebound_allocator_base U RU) :=
  if is_array_allocation T R = is_array_allocation U RU then
    some (if same then (self, rOther)
          else ({ m_raw_operators := fetch_raw_operators ctx (is_array_allocation T R) }, rOther))
  else none

/-- Same-type move constructor (source lines 233-236): copies the pair
already captured by rOther via get_raw_operators; the parameter is a
const rvalue reference, so rOther cannot be and is not modified. -/
def move_construct {T : CppType} {R : raw_allocation_type}
    (rOther : modulebound_allocator_base T R) :
    modulebound_allocator_base T R × modulebound_allocator_base T R :=
  ({ m_raw_operators := (rOther.get_raw_operators).1 }, rOther)

/-- Same-type move assignment (source lines 242-249): unless this and
rOther are the same object, replaces the stored pair by the pair already
captured by rOther; rOther is not modified. -/
def move_assign {T : CppType} {R : raw_allocation_type}
    (self rOther : modulebound_allocator_base T R) (same : Bool) :
    modulebound_allocator_base T R × modulebound_allocator_base T R :=
  if same then (self, rOther)
  else ({ m_raw_operators := (rOther.get_raw_operators).1 }, rOther)

/-- Cross-type move constructor (source lines 256-270): statically
asserts matching resolved kinds; when they match, copies the pair
already captured by rOther; rOther is not modified. -/
def move_construct_cross (T : CppType) (R : raw_allocation_type)
    {U : CppType} {RU : raw_allocation_type}
    (rOther : modulebound_allocator_base U RU) :
    Option (modulebound_allocator_base T R × modulebound_allocator_base U RU) :=
  if is_array_allocation T R = is_array_allocation U RU then
    some ({ m_raw_operators := (rOther.get_raw_operators).1 }, rOther)
  else none

/-- Cross-type move assignment (source lines 277-295): statically
asserts matching resolved kinds; when they match, unless this and rOther
are the same object, replaces the stored pair by the pair already
captured by rOther; rOther is not modified. -/
def move_assign_cross {T : CppType} {R : raw_allocation_type}
    {U : CppType} {RU : raw_allocation_type}
    (self : modulebound_allocator_base T R)
    (rOther : modulebound_allocator_base U RU) (same : Bool) :
    Option (modulebound_allocator_base T R × modulebound_allocator_base U RU) :=
  if is_array_allocation T R = is_array_allocation U RU then
    some (if same then (self, rOther)
          else ({ m_raw_operators := (rOther.get_raw_operators).1 }, rOther))
  else none

end modulebound_allocator_base

/-- The semantics of the raw functions of the environment: each allocate
function pointer maps a byte count to an address (`none` models an
allocation failure / bad_alloc propagated to the caller).  Addresses are
modelled as natural numbers with 0 the null pointer. -/
structure RawEnv where
  allocFn : FnPtr → Nat → Option Nat

/-- modulebound_allocator(T, RawAllocation): derives from the base and
adds no data of its own. -/
structure modulebound_allocator (T : CppType) (R : raw_allocation_type) extends
  modulebound_allocator_base T R
deriving DecidableEq, Repr

namespace modulebound_allocator

/-- value_type of the std.allocator base of modulebound_allocator(T, R):
the element type with reference and all array extents stripped (source
line 125: std.allocator(detail.remove_reference_and_all_extents(T))). -/
def value_type (T : CppType) : CppType :=
  remove_reference_and_all_extents T

/-- allocate(nCount) (source lines 443-449): invokes the captured
allocate function with sizeof(value_type) * nCount bytes — the product
computed in size_t, i.e. wrapping modulo 2 ^ 64 — and returns the
resulting address reinterpreted as pointer (static_cast is the identity
on the modelled address).  The receiver is returned unchanged: the body
stores nothing into m_raw_operators. -/
def allocate {T : CppType} {R : raw_allocation_type} (env : RawEnv)
    (self : modulebound_allocator T R) (nCount : Nat) :
    Option Nat × modulebound_allocator T R :=
  (env.allocFn (self.tomodulebound_allocator_base.get_raw_operators).1.first
      ((CppType.sizeofBytes (value_type T) * nCount) % 2 ^ 64),
   self)

/-- allocate(nCount, hint) (source lines 457-461): forwards to the
no-hint version; the hint (a const_pointer of the void specialization,
modelled as an address) is ignored. -/
def allocate_hint {T : CppType} {R : raw_allocation_type} (env : RawEnv)
    (self : modulebound_allocator T R) (nCount : Nat) (_hint : Nat) :
    Option Nat × modulebound_allocator T R :=
  allocate env self nCount

/-- deallocate(p, nCount) (source lines 468-471): invokes the captured
deallocate function with p as its only argument; the count parameter is
ignored.  The first component is the invocation performed — the pointer
identity of the called function and the address passed to it; the body
itself is total (cannot fault) and stores nothing, so the receiver is
returned unchanged. -/
def deallocate {T : CppType} {R : raw_allocation_type}
    (self : modulebound_allocator T R) (p : Nat) (_nCount : Nat) :
    (FnPtr × Nat) × modulebound_allocator T R :=
  (((self.tomodulebound_allocator_base.get_raw_operators).1.second, p), self)

end modulebound_allocator

/-- operator== on two module-bound allocators of possibly different
element types and policies (source lines 551-557): forwards to the
std.pair comparison of the two captured raw operator pairs. -/
def alloc_eq {T : CppType} {R : raw_allocation_type}
    {U : CppType} {RU : raw_allocation_type}
    (rLeft : modulebound_allocator T R) (rRight : modulebound_allocator U RU) : Bool :=
  RawOperators.pair_eq
    (rLeft.tomodulebound_allocator_base.get_raw_operators).1
    (rRight.tomodulebound_allocator_base.get_raw_operators).1

/-- operator!= on two module-bound allocators of possibly different
element types and policies (source lines 562-568): forwards to the
std.pair inequality of the two captured raw operator pairs. -/
def alloc_ne {T : CppType} {R : raw_allocation_type}
    {U : CppType} {RU : raw_allocation_type}
    (rLeft : modulebound_allocator T R) (rRight : modulebound_allocator U RU) : Bool :=
  RawOperators.pair_ne
    (rLeft.tomodulebound_allocator_base.get_raw_operators).1
    (rRight.tomodulebound_allocator_base.get_raw_operators).1

/-- A concrete non-array element type (an int of 4 bytes). -/
def int_t : CppType := .scalar 0 4 false

/-- A concrete 8-byte element type. -/
def wide_t : CppType := .scalar 1 8 false

/-- The concrete array type int[3]. -/
def intArr3 : CppType := .arr int_t (some 3)

/-- A concrete environment whose allocate functions return the requested
byte count itself as the address, making the argument of the raw
invocation observable in the result. -/
def byteEchoEnv : RawEnv := { allocFn := fun _ bytes => some bytes }

/-- A concrete allocator instance over the 8-byte element type. -/
def wideAlloc : modulebound_allocator wide_t .raw_allocation_single :=
  { m_raw_operators := { first := 10, second := 11 } }

/-- C1: for every element type and allocation policy, copy construction
ignores the stored pair of the source and captures a fresh pair from the
calling module, leaving the source unchanged; copy assignment between
distinct objects re-captures a fresh pair the same way; copy assignment
of an object to itself leaves both states (and hence the stored pair)
unchanged. -/
theorem c1_copy_fresh_capture :
    ∀ (T : CppType) (R : raw_allocation_type) (ctx : Module)
      (self rOther : modulebound_allocator_base T R),
      (modulebound_allocator_base.copy_construct ctx rOther).1.m_raw_operators
          = fetch_raw_operators ctx (is_array_allocation T R)
      ∧ (modulebound_allocator_base.copy_construct ctx rOther).2 = rOther
      ∧ (modulebound_allocator_base.copy_assign ctx self rOther false).1.m_raw_operators
          = fetch_raw_operators ctx (is_array_allocation T R)
      ∧ (modulebound_allocator_base.copy_assign ctx self rOther false).2 = rOther
      ∧ modulebound_allocator_base.copy_assign ctx self self true = (self, self) := by
  intro T R ctx self rOther
  exact ⟨rfl, rfl, rfl, rfl, rfl⟩

/-- C2: for any two allocators a and b, possibly of different element
types and allocation policies, a == b holds exactly when their captured
raw operator pairs are identical: the allocate functions are
pointer-equal and the deallocate functions are pointer-equal. -/
theorem c2_equality_is_pair_identity :
    ∀ (T : CppType) (R : raw_allocation_type)
      (U : CppType) (RU : raw_allocation_type)
      (a : modulebound_allocator T R) (b : modulebound_allocator U RU),
      alloc_eq a b = true ↔
        (a.tomodulebound_allocator_base.m_raw_operators.first
            = b.tomodulebound_allocator_base.m_raw_operators.first
         ∧ a.tomodulebound_allocator_base.m_raw_operators.second
            = b.tomodulebound_allocator_base.m_raw_operators.second) := by
  intro T R U RU a b
  simp [alloc_eq, RawOperators.pair_eq, modulebound_allocator_base.get_raw_operators,
    Bool.and_eq_true, beq_iff_eq]

/-- C3 (move operations of the base class, source lines 228-249): move
construction copies the already-captured pair of the source verbatim and
leaves the source unchanged; move assignment between distinct objects
does the same, and move assignment of an object to itself changes
nothing.  The cross-type move assignment of the derived class at source
lines 428-436 reads the undeclared identifier Other (the parameter is
named rOther) and therefore fails to compile when instantiated, so no
runtime behaviour exists for it to verify; this theorem covers the move
operations that compile and that it was intended to forward to. -/
theorem c3_move_copies_pair_verbatim :
    ∀ (T : CppType) (R : raw_allocation_type)
      (self rOther : modulebound_allocator_base T R),
      (modulebound_allocator_base.move_construct rOther).1.m_raw_operators
          = rOther.m_raw_operators
      ∧ (modulebound_allocator_base.move_construct rOther).2 = rOther
      ∧ (modulebound_allocator_base.move_assign self rOther false).1.m_raw_operators
          = rOther.m_raw_operators
      ∧ (modulebound_allocator_base.move_assign self rOther false).2 = rOther
      ∧ modulebound_allocator_base.move_assign self self true = (self, self) := by
  intro T R self rOther
  exact ⟨rfl, rfl, rfl, rfl, rfl⟩

/-- C4 counterexample: allocate(count) does not invoke the captured
allocate function with the exact mathematical product
sizeof(element) * count for every count — the source computes the
product in size_t, which wraps modulo 2 ^ 64.  Concretely, for the
8-byte element type and count 2 ^ 61 the invocation carries
(8 * 2 ^ 61) mod 2 ^ 64 = 0 bytes, not 2 ^ 64. -/
theorem c4_counterexample_overflow :
    ¬ (∀ (T : CppType) (R : raw_allocation_type) (env : RawEnv)
         (a : modulebound_allocator T R) (nCount : Nat),
         (modulebound_allocator.allocate env a nCount).1
             = env.allocFn a.tomodulebound_allocator_base.m_raw_operators.first
                 ((remove_reference_and_all_extents T).sizeofBytes * nCount)) :=
  fun h =>
    absurd (h wide_t .raw_allocation_single byteEchoEnv wideAlloc (2 ^ 61)) (by decide)

/-- C4 amended: allocate(count) invokes the captured allocate function
with sizeof(element) * count bytes computed in size_t, i.e. reduced
modulo 2 ^ 64, where element is the element type with reference and
array extents stripped, and returns the resulting address; whenever the
product does not overflow size_t this is exactly
sizeof(element) * count; allocate(count, hint) returns exactly the same
result as allocate(count) for every hint value. -/
theorem c4_allocate_bytes_amended :
    ∀ (T : CppType) (R : raw_allocation_type) (env : RawEnv)
      (a : modulebound_allocator T R) (nCount hint : Nat),
      (modulebound_allocator.allocate env a nCount).1
          = env.allocFn a.tomodulebound_allocator_base.m_raw_operators.first
              (((remove_reference_and_all_extents T).sizeofBytes * nCount) % 2 ^ 64)
      ∧ ((remove_reference_and_all_extents T).sizeofBytes * nCount < 2 ^ 64 →
          (modulebound_allocator.allocate env a nCount).1
              = env.allocFn a.tomodulebound_allocator_base.m_raw_operators.first
                  ((remove_reference_and_all_extents T).sizeofBytes * nCount))
      ∧ modulebound_allocator.allocate_hint env a nCount hint
          = modulebound_allocator.allocate env a nCount := by
  intro T R env a nCount hint
  refine ⟨rfl, ?_, rfl⟩
  intro hlt
  have hmod : ((remove_reference_and_all_extents T).sizeofBytes * nCount) % 2 ^ 64
      = (remove_reference_and_all_extents T).sizeofBytes * nCount :=
    Nat.mod_eq_of_lt hlt
  exact congrArg (env.allocFn a.tomodulebound_allocator_base.m_raw_operators.first) hmod

/-- Witness for the amended C4 at concrete inputs: allocating 4 elements
of the 8-byte element type invokes the captured allocate function with
exactly 32 bytes (no overflow), observable through the byte-echoing
environment. -/
theorem c4_allocate_bytes_amended_witness :
    (modulebound_allocator.allocate byteEchoEnv wideAlloc 4).1
        = byteEchoEnv.allocFn wideAlloc.tomodulebound_allocator_base.m_raw_operators.first
            ((remove_reference_and_all_extents wide_t).sizeofBytes * 4) :=
  (c4_allocate_bytes_amended wide_t .raw_allocation_single byteEchoEnv wideAlloc 4 0).2.1
    (by decide)

/-- C5: deallocate(p, count) invokes the captured deallocate function
with p as its only argument, for every count the same invocation (count
is ignored); in particular with a null pointer it performs the
invocation of the captured deallocate function on null, and the
operation itself is total (it cannot fault before handing null to the
raw function). -/
theorem c5_deallocate_ignores_count :
    ∀ (T : CppType) (R : raw_allocation_type)
      (a : modulebound_allocator T R) (p nCount nCount2 : Nat),
      (modulebound_allocator.deallocate a p nCount).1
          = (a.tomodulebound_allocator_base.m_raw_operators.second, p)
      ∧ modulebound_allocator.deallocate a p nCount
          = modulebound_allocator.deallocate a p nCount2
      ∧ (modulebound_allocator.deallocate a 0 nCount).1
          = (a.tomodulebound_allocator_base.m_raw_operators.second, 0) := by
  intro T R a p nCount nCount2
  exact ⟨rfl, rfl, rfl⟩

/-- C6: the resolved allocation kind is Single under the Single policy,
Array under the Array policy, and under the Deduced policy Array exactly
when the element type is an array type; rebind(U) produces the
specialization over U with the same policy parameter, so the kind is
re-resolved at each rebinding level: rebinding a Deduced allocator from
an array element type to a non-array U resolves to Single, and to an
array U resolves to Array. -/
theorem c6_kind_resolution_and_rebind :
    ∀ (T U : CppType) (R : raw_allocation_type),
      resolved_kind { T := T, RawAllocation := .raw_allocation_single } = false
      ∧ resolved_kind { T := T, RawAllocation := .raw_allocation_array } = true
      ∧ resolved_kind { T := T, RawAllocation := .raw_allocation_deduce } = T.is_array
      ∧ rebind { T := T, RawAllocation := R } U = { T := U, RawAllocation := R }
      ∧ resolved_kind (rebind { T := T, RawAllocation := R } U) = is_array_allocation U R
      ∧ (T.is_array = true → U.is_array = false →
          resolved_kind (rebind { T := T, RawAllocation := .raw_allocation_deduce } U) = false)
      ∧ (U.is_array = true →
          resolved_kind (rebind { T := T, RawAllocation := .raw_allocation_deduce } U) = true) := by
  intro T U R
  refine ⟨rfl, rfl, rfl, rfl, rfl, ?_, ?_⟩
  · intro _ hU
    simp [resolved_kind, rebind, is_array_allocation, hU]
  · intro hU
    simp [resolved_kind, rebind, is_array_allocation, hU]

/-- Witness for C6 at concrete types: rebinding the Deduced allocator
over int[3] to int resolves to Single, and to int[3] stays Array. -/
theorem c6_kind_resolution_and_rebind_witness :
    resolved_kind (rebind { T := intArr3, RawAllocation := .raw_allocation_deduce } int_t) = false
    ∧ resolved_kind (rebind { T := intArr3, RawAllocation := .raw_allocation_deduce } intArr3) = true :=
  ⟨(c6_kind_resolution_and_rebind intArr3 int_t .raw_allocation_deduce).2.2.2.2.2.1
      (by decide) (by decide),
   (c6_kind_resolution_and_rebind intArr3 intArr3 .raw_allocation_deduce).2.2.2.2.2.2
      (by decide)⟩

/-- C7: every cross-specialization copy or move construction/assignment
is rejected at compile time (modelled as `none`) exactly when the
resolved allocation kinds of the two specializations differ; whenever
the kinds match a value exists, so a kind mismatch is never a runtime
condition. -/
theorem c7_kind_mismatch_rejected_at_compile_time :
    ∀ (T : CppType) (R : raw_allocation_type)
      (U : CppType) (RU : raw_allocation_type) (ctx : Module)
      (self : modulebound_allocator_base T R)
      (rOther : modulebound_allocator_base U RU) (same : Bool),
      (modulebound_allocator_base.copy_construct_cross T R ctx rOther = none
          ↔ is_array_allocation T R ≠ is_array_allocation U RU)
      ∧ (modulebound_allocator_base.copy_assign_cross ctx self rOther same = none
          ↔ is_array_allocation T R ≠ is_array_allocation U RU)
      ∧ (modulebound_allocator_base.move_construct_cross T R rOther = none
          ↔ is_array_allocation T R ≠ is_array_allocation U RU)
      ∧ (modulebound_allocator_base.move_assign_cross self rOther same = none
          ↔ is_array_allocation T R ≠ is_array_allocation U RU) := by
  intro T R U RU ctx self rOther same
  by_cases h : is_array_allocation T R = is_array_allocation U RU <;>
    simp [modulebound_allocator_base.copy_construct_cross,
      modulebound_allocator_base.copy_assign_cross,
      modulebound_allocator_base.move_construct_cross,
      modulebound_allocator_base.move_assign_cross, h]

/-- C8 counterexample: it is not true that two specializations differing
only in the value category (reference qualification) of the element type
always resolve to the same allocation kind.  Concretely, under the
Deduced policy the element type int[3] resolves to Array while the
reference type int(&)[3] resolves to Single, because std.is_array is
false on references to arrays. -/
theorem c8_counterexample_reference_to_array :
    ¬ (∀ (T : CppType) (R : raw_allocation_type),
        is_array_allocation T R = is_array_allocation (CppType.lref T) R) :=
  fun h => absurd (h intArr3 .raw_allocation_deduce) (by decide)

/-- C8 amended: the resolved allocation kind is unchanged by
const-qualifying the element type; it is unchanged by reference
qualification whenever the policy is Single or Array, and also under the
Deduced policy whenever the element type is not an array type.  (The
remaining case, Deduced policy over an array type versus a reference to
that array type, genuinely resolves differently: Array versus Single.) -/
theorem c8_kind_invariance_amended :
    ∀ (T : CppType) (R : raw_allocation_type),
      is_array_allocation T.addConst R = is_array_allocation T R
      ∧ (R ≠ .raw_allocation_deduce →
          is_array_allocation (CppType.lref T) R = is_array_allocation T R
          ∧ is_array_allocation (CppType.rref T) R = is_array_allocation T R)
      ∧ (T.is_array = false →
          is_array_allocation (CppType.lref T) R = is_array_allocation T R
          ∧ is_array_allocation (CppType.rref T) R = is_array_allocation T R) := by
  intro T R
  refine ⟨?_, ?_, ?_⟩
  · cases R
    · rfl
    · rfl
    · cases T <;> rfl
  · intro hR
    cases R
    · exact ⟨rfl, rfl⟩
    · exact ⟨rfl, rfl⟩
    · exact absurd rfl hR
  · intro hT
    cases R
    · exact ⟨rfl, rfl⟩
    · exact ⟨rfl, rfl⟩
    · exact ⟨hT.symm, hT.symm⟩

/-- Witness for the amended C8 at concrete inputs: const and reference
qualification of int do not change the resolved kind under the Array and
Deduced policies. -/
theorem c8_kind_invariance_amended_witness :
    is_array_allocation int_t.addConst .raw_allocation_deduce
        = is_array_allocation int_t .raw_allocation_deduce
    ∧ is_array_allocation (CppType.lref int_t) .raw_allocation_array
        = is_array_allocation int_t .raw_allocation_array
    ∧ is_array_allocation (CppType.lref int_t) .raw_allocation_deduce
        = is_array_allocation int_t .raw_allocation_deduce :=
  ⟨(c8_kind_invariance_amended int_t .raw_allocation_deduce).1,
   ((c8_kind_invariance_amended int_t .raw_allocation_array).2.1 (by decide)).1,
   ((c8_kind_invariance_amended int_t .raw_allocation_deduce).2.2 (by decide)).1⟩

/-- C9: allocate, allocate with hint, deallocate and get_raw_operators
leave the allocator state — in particular the stored raw operator pair —
untouched: the post-call state equals the pre-call state. -/
theorem c9_operations_preserve_stored_pair :
    ∀ (T : CppType) (R : raw_allocation_type) (env : RawEnv)
      (a : modulebound_allocator T R) (b : modulebound_allocator_base T R)
      (nCount p hint : Nat),
      (modulebound_allocator.allocate env a nCount).2 = a
      ∧ (modulebound_allocator.allocate_hint env a nCount hint).2 = a
      ∧ (modulebound_allocator.deallocate a p nCount).2 = a
      ∧ (modulebound_allocator_base.get_raw_operators b).2 = b := by
  intro T R env a b nCount p hint
  exact ⟨rfl, rfl, rfl, rfl⟩

/-- C10: for every two allocators of any element types and policies,
operator!= returns exactly the boolean negation of operator==, both
being computed from the same captured raw operator pairs. -/
theorem c10_ne_is_negation_of_eq :
    ∀ (T : CppType) (R : raw_allocation_type)
      (U : CppType) (RU : raw_allocation_type)
      (a : modulebound_allocator T R) (b : modulebound_allocator U RU),
      alloc_ne a b = !(alloc_eq a b)
      ∧ (alloc_ne a b = true ↔ ¬ (alloc_eq a b = true)) := by
  intro T R U RU a b
  refine ⟨rfl, ?_⟩
  simp [alloc_ne, alloc_eq, RawOperators.pair_ne]

end kj
